import Mathlib

/-!
Verification of the limrun-inc/go-sdk transport core against its
natural-language specification.

The development shallowly embeds the Go code of
`tunnel/multiplexed.go` (frame codec, byte-stream multiplexer),
`websocket/ios/websocket.go` (RPC correlator client) and
`websocket/ios/simctl.go` (streaming command controller).

Modelling conventions:
* Byte strings are `List Nat` whose elements are byte values; machine
  `uint32` values are `Nat` with explicit `< 2 ^ 32` bounds where they
  matter.
* The concurrent registries (`sync.Map`) are association lists with
  decidable-equality keys; `Load`, `LoadAndDelete`, `Delete` and `Store`
  become `lookupKey`, `eraseKey`, `updateKey`.
* Go channels are identified by numeric handles; closing a channel or
  writing to a local TCP connection is recorded as an explicit effect
  value emitted by the step functions, so that theorems can talk about
  what was delivered where.
* Blocking (`<-ch`, `<-c.done`) is modelled by `Option`: `none` means
  the call is still blocked in that state.
* Fields of the Go structs that no claim touches and that do not affect
  control flow (float-valued screenshot dimensions, the raw JSON
  payload fields of responses, the base64 wrapping of simctl output
  which the read loop decodes before dispatch) are elided from the
  records; simctl output is carried as already-decoded bytes.
-/

namespace GoSDK

/-! ## Association-list maps (the sync.Map registries) -/

/-- Lookup in an association list, mirroring `sync.Map.Load`. -/
def lookupKey {κ α : Type} [DecidableEq κ] (k : κ) : List (κ × α) → Option α
  | [] => none
  | p :: rest => if p.1 = k then some p.2 else lookupKey k rest

/-- Removal from an association list, mirroring `sync.Map.Delete`. -/
def eraseKey {κ α : Type} [DecidableEq κ] (k : κ) : List (κ × α) → List (κ × α)
  | [] => []
  | p :: rest => if p.1 = k then eraseKey k rest else p :: eraseKey k rest

/-- In-place replacement of the value stored at a key (the Go code
mutates the object the registry points at). -/
def updateKey {κ α : Type} [DecidableEq κ] (k : κ) (v : α) : List (κ × α) → List (κ × α)
  | [] => []
  | p :: rest => if p.1 = k then (k, v) :: rest else p :: updateKey k v rest

/-! ## Frame codec (`tunnel/multiplexed.go`, `encodeMessage` / `decodeMessage`)

The wire format is `[4 bytes: connection ID, big-endian uint32][data]`.
-/

/-- Size of the connection ID header in bytes (`connIDSize`). -/
def connIDSize : Nat := 4

/-- Big-endian serialization of a `uint32`, the effect of
`binary.BigEndian.PutUint32` on a 4-byte buffer. -/
def putUint32BE (n : Nat) : List Nat :=
  [n / 2 ^ 24 % 256, n / 2 ^ 16 % 256, n / 2 ^ 8 % 256, n % 256]

/-- Big-endian deserialization, the effect of `binary.BigEndian.Uint32`
on the 4-byte prefix. -/
def beUint32 (bytes : List Nat) : Nat :=
  bytes.foldl (fun acc b => acc * 256 + b) 0

/-- Embedding of `encodeMessage`: prefix the data with the 4-byte
big-endian connection ID. Always succeeds. -/
def encodeMessage (connID : Nat) (data : List Nat) : List Nat :=
  putUint32BE connID ++ data

/-- Embedding of `decodeMessage`: reject messages shorter than
`connIDSize`, otherwise split off the 4-byte header as the connection ID
and return the rest as opaque payload. -/
def decodeMessage (message : List Nat) : Except String (Nat × List Nat) :=
  if message.length < connIDSize then
    Except.error "message too short"
  else
    Except.ok (beUint32 (message.take connIDSize), message.drop connIDSize)

/-! ## Errors (`websocket/ios/websocket.go`, `simctl.go`)

`GoError` enumerates the error values the embedded code paths can
produce: the two sentinel errors of the ios package, the wrapped
transport errors, application errors built from a response error
string, the simctl exit-code and not-started errors, and the
already-closed error Go net connections and listeners return when
closed a second time.
-/

inductive GoError where
  | notConnected
  | connectionClose
  | notStarted
  | alreadyStarted
  | ctxCanceled
  | sendFailed
  | appError (message : String)
  | exitCodeErr (code : Int)
  | alreadyClosed
  deriving DecidableEq

/-! ## Streaming command controller (`websocket/ios/simctl.go`) -/

/-- State of one `SimctlCmd`. The stdout/stderr sinks are modelled by a
flag saying whether a sink is attached plus the list of chunks written
to it; `doneClosed` models `close(c.done)`. -/
structure SimctlState where
  started : Bool
  finished : Bool
  doneClosed : Bool
  err : Option GoError
  exitCode : Int
  hasStdout : Bool
  hasStderr : Bool
  stdoutWritten : List (List Nat)
  stderrWritten : List (List Nat)
  deriving DecidableEq

/-- A freshly created command (`Client.Simctl`). -/
def SimctlState.new : SimctlState :=
  { started := false, finished := false, doneClosed := false, err := none,
    exitCode := 0, hasStdout := false, hasStderr := false,
    stdoutWritten := [], stderrWritten := [] }

/-- Embedding of `SimctlCmd.handleOutput`: write non-empty chunks to the
attached sinks; when an exit code is present, record it, mark the
command finished and close the done channel. -/
def SimctlCmd.handleOutput (c : SimctlState) (stdout stderr : List Nat)
    (exitCode : Option Int) : SimctlState :=
  let c1 := if stdout.length > 0 ∧ c.hasStdout = true
    then { c with stdoutWritten := c.stdoutWritten ++ [stdout] } else c
  let c2 := if stderr.length > 0 ∧ c1.hasStderr = true
    then { c1 with stderrWritten := c1.stderrWritten ++ [stderr] } else c1
  match exitCode with
  | none => c2
  | some ec => { c2 with exitCode := ec, finished := true, doneClosed := true }

/-- Embedding of `SimctlCmd.handleError`: a command that already
finished is left untouched; otherwise the error is recorded, the
command is marked finished and the done channel is closed. -/
def SimctlCmd.handleError (c : SimctlState) (e : GoError) : SimctlState :=
  if c.finished = true then c
  else { c with err := some e, finished := true, doneClosed := true }

/-- Embedding of `SimctlCmd.Wait`. The outer `Option` models blocking:
`none` means `Wait` is still blocked on `<-c.done`. The inner
`Option GoError` is the returned error (`none` is a nil error). -/
def SimctlCmd.wait (c : SimctlState) : Option (Option GoError) :=
  if c.started = false then some (some GoError.notStarted)
  else if c.doneClosed = false then none
  else if c.err.isSome then some c.err
  else if c.exitCode ≠ 0 then some (some (GoError.exitCodeErr c.exitCode))
  else some none

/-- One inbound `simctlStream` message, after base64 decoding. -/
structure StreamMsg where
  stdout : List Nat
  stderr : List Nat
  exitCode : Option Int
  deriving DecidableEq

/-- Deliver a sequence of inbound stream messages to a command, in
transport arrival order. -/
def runStream (c : SimctlState) : List StreamMsg → SimctlState
  | [] => c
  | m :: rest => runStream (SimctlCmd.handleOutput c m.stdout m.stderr m.exitCode) rest

/-! ## RPC correlator client (`websocket/ios/websocket.go`) -/

/-- Embedding of the wire `response` struct. Only fields that drive
control flow or that the claims mention are kept; `stdout` and `stderr`
carry the bytes after the base64 decode the read loop performs. -/
structure Response where
  type : String
  id : String
  error : String
  json : String
  elementLabel : String
  elementType : String
  stdout : List Nat
  stderr : List Nat
  exitCode : Option Int
  deriving DecidableEq

/-- State of a `Client`: the closed flag, the number of times the
underlying WebSocket has been closed, the done channel, the two
registries and the request ID counter. Pending requests map a request
ID to the handle of its one-shot response channel. -/
structure ClientState where
  closed : Bool
  wsCloseCount : Nat
  doneClosed : Bool
  pendingRequests : List (String × Nat)
  simctlExecutions : List (String × SimctlState)
  nextRequestID : Nat
  deriving DecidableEq

/-- Observable effects of one read-loop iteration. -/
inductive ReadEffect where
  | deliverResponse (ch : Nat) (resp : Response)
  | cmdOutput (id : String) (cmd : SimctlState)
  deriving DecidableEq

/-- Embedding of the dispatch in `Client.readLoop` for one successfully
parsed inbound message: a `simctlStream` message is routed to the
registered command by ID (and the registration is dropped on a terminal
message); any other message is matched against the pending-request
registry with `LoadAndDelete` and delivered on the stored channel, or
dropped when no registration exists. -/
def Client.processMessage (st : ClientState) (resp : Response) :
    ClientState × List ReadEffect :=
  if resp.type = "simctlStream" then
    match lookupKey resp.id st.simctlExecutions with
    | some cmd =>
        let cmd1 := SimctlCmd.handleOutput cmd resp.stdout resp.stderr resp.exitCode
        if resp.exitCode.isSome then
          ({ st with simctlExecutions := eraseKey resp.id st.simctlExecutions },
           [ReadEffect.cmdOutput resp.id cmd1])
        else
          ({ st with simctlExecutions := updateKey resp.id cmd1 st.simctlExecutions },
           [ReadEffect.cmdOutput resp.id cmd1])
    | none => (st, [])
  else
    match lookupKey resp.id st.pendingRequests with
    | some ch =>
        ({ st with pendingRequests := eraseKey resp.id st.pendingRequests },
         [ReadEffect.deliverResponse ch resp])
    | none => (st, [])

/-- Result of `Client.Close`: the new state, the channels of the pending
requests that were closed, the final state of every streaming command
the close path touched, and the returned error. -/
structure CloseResult where
  state : ClientState
  closedChans : List Nat
  finalCmds : List (String × SimctlState)
  ret : Option GoError
  deriving DecidableEq

/-- Embedding of `Client.Close`. The `closed.Swap(true)` guard returns
nil immediately when the client is already closed. Otherwise: mark
closed, close the done channel, close the WebSocket (whose own close
error `wsErr` is the return value), close and delete every pending
request channel, and run `handleError(ErrConnectionClose)` on every
registered streaming command before deleting it. -/
def Client.close (st : ClientState) (wsErr : Option GoError) : CloseResult :=
  if st.closed = true then
    { state := st, closedChans := [], finalCmds := [], ret := none }
  else
    let st1 : ClientState :=
      { st with closed := true, doneClosed := true,
                wsCloseCount := st.wsCloseCount + 1 }
    { state := { st1 with pendingRequests := [], simctlExecutions := [] },
      closedChans := st.pendingRequests.map Prod.snd,
      finalCmds := st.simctlExecutions.map
        (fun p => (p.1, SimctlCmd.handleError p.2 GoError.connectionClose)),
      ret := wsErr }

/-- What the blocking select at the end of `sendRequest` observes:
caller cancellation, the response channel closed by `Close`, or a
delivered response. -/
inductive SendOutcome where
  | ctxDone
  | chanClosed
  | received (resp : Response)
  deriving DecidableEq

/-- Decidable equality for `Except`, needed so that witness theorems
about concrete send results can be settled by `decide`. -/
instance {ε α : Type} [DecidableEq ε] [DecidableEq α] : DecidableEq (Except ε α) := fun x y =>
  match x, y with
  | Except.error a, Except.error b =>
      if h : a = b then isTrue (by rw [h])
      else isFalse (by intro hc; cases hc; exact h rfl)
  | Except.error _, Except.ok _ => isFalse (by intro hc; cases hc)
  | Except.ok _, Except.error _ => isFalse (by intro hc; cases hc)
  | Except.ok a, Except.ok b =>
      if h : a = b then isTrue (by rw [h])
      else isFalse (by intro hc; cases hc; exact h rfl)

/-- Result of `Client.sendRequest`: the final state, whether a pending
registration was ever stored, whether a transport write was attempted,
and the returned value or error. -/
structure SendResult where
  state : ClientState
  registered : Bool
  wrote : Bool
  result : Except GoError Response
  deriving DecidableEq

/-- Embedding of `Client.sendRequest`. A closed client fails with
`ErrNotConnected` before registering or writing anything. Otherwise a
fresh request ID is taken, a one-shot channel is registered (and
removed again by the deferred delete on every exit path, so the final
registry equals the initial one), the request is written under the
write lock, and the select waits for `writeOk`-dependent outcomes: a
write failure returns a wrapped send error; cancellation returns the
context error; a closed channel returns `ErrConnectionClose`; a
response with a non-empty error string becomes an application error;
any other response is returned as is. -/
def Client.sendRequest (st : ClientState) (outcome : SendOutcome)
    (writeOk : Bool) : SendResult :=
  if st.closed = true then
    { state := st, registered := false, wrote := false,
      result := Except.error GoError.notConnected }
  else
    let st1 : ClientState := { st with nextRequestID := st.nextRequestID + 1 }
    if writeOk = false then
      { state := st1, registered := true, wrote := true,
        result := Except.error GoError.sendFailed }
    else
      match outcome with
      | SendOutcome.ctxDone =>
          { state := st1, registered := true, wrote := true,
            result := Except.error GoError.ctxCanceled }
      | SendOutcome.chanClosed =>
          { state := st1, registered := true, wrote := true,
            result := Except.error GoError.connectionClose }
      | SendOutcome.received resp =>
          { state := st1, registered := true, wrote := true,
            result := if resp.error ≠ "" then Except.error (GoError.appError resp.error)
                      else Except.ok resp }

/-! ## Byte-stream multiplexer (`tunnel/multiplexed.go`) -/

/-- Observable effects of one demux-loop iteration
(`Multiplexed.readFromWebSocket`). Local connections are identified by
numeric handles stored in the registry. -/
inductive DemuxEffect where
  | logDecodeError
  | logUnknownConn (connID : Nat)
  | closeLocalConn (conn : Nat)
  | deliverLocal (conn : Nat) (data : List Nat)
  | logWriteError (connID : Nat)
  deriving DecidableEq

/-- Result of one demux-loop iteration: the updated registry, the
effects, and whether the loop continues with the next message. -/
structure DemuxStep where
  connections : List (Nat × Nat)
  effects : List DemuxEffect
  continues : Bool
  deriving DecidableEq

/-- Embedding of the body of the read loop in
`Multiplexed.readFromWebSocket`, for one received WebSocket message.
A decode failure is logged and skipped. An unknown connection ID is
silently ignored when the payload is empty (the close-close race) and
logged when data could not be delivered. For a registered connection an
empty payload is the close signal: the local connection is closed and
the ID deregistered; otherwise the payload is written to the local
connection (`writeOk` says whether that write succeeds) and on write
failure the connection is closed and deregistered. Every branch
continues the loop. (The registry only ever stores local TCP
connections, so the defensive type assertion in the Go code cannot
fail and is not modelled.) -/
def readFromWebSocketStep (conns : List (Nat × Nat)) (message : List Nat)
    (writeOk : Bool) : DemuxStep :=
  match decodeMessage message with
  | Except.error _ =>
      { connections := conns, effects := [DemuxEffect.logDecodeError], continues := true }
  | Except.ok (connID, data) =>
      match lookupKey connID conns with
      | none =>
          if data.length > 0 then
            { connections := conns, effects := [DemuxEffect.logUnknownConn connID],
              continues := true }
          else
            { connections := conns, effects := [], continues := true }
      | some conn =>
          if data.length = 0 then
            { connections := eraseKey connID conns,
              effects := [DemuxEffect.closeLocalConn conn], continues := true }
          else if writeOk = true then
            { connections := conns, effects := [DemuxEffect.deliverLocal conn data],
              continues := true }
          else
            { connections := eraseKey connID conns,
              effects := [DemuxEffect.logWriteError connID, DemuxEffect.closeLocalConn conn],
              continues := true }

/-- One local read observed by the per-connection forwarding loop in
`Multiplexed.handleConnection`: a chunk of bytes together with the
success of the subsequent WebSocket write, a clean end-of-stream
(`io.EOF`), or any other read error. -/
inductive ReadResult where
  | chunk (data : List Nat) (wsOk : Bool)
  | eof
  | readErr
  deriving DecidableEq

/-- Outcome of running the forwarding loop over a finite sequence of
local reads: whether the loop exited (it returns only on `io.EOF`), the
frames successfully written to the WebSocket in order, and the number
of errors logged. `exited = false` means the loop is still running
(blocked on the next local read). -/
structure LoopOutcome where
  exited : Bool
  frames : List (List Nat)
  logs : Nat
  deriving DecidableEq

/-- Embedding of the `for` loop body of `Multiplexed.handleConnection`:
on `io.EOF` return; on any other read error log and continue; skip
empty reads; otherwise encode the chunk as a frame and write it under
the write lock, logging and continuing when the write fails. -/
def forwardLoop (connID : Nat) : List ReadResult → LoopOutcome
  | [] => { exited := false, frames := [], logs := 0 }
  | ReadResult.eof :: _ => { exited := true, frames := [], logs := 0 }
  | ReadResult.readErr :: rest =>
      let o := forwardLoop connID rest
      { o with logs := o.logs + 1 }
  | ReadResult.chunk data wsOk :: rest =>
      if data.length = 0 then forwardLoop connID rest
      else
        let o := forwardLoop connID rest
        if wsOk = true then { o with frames := encodeMessage connID data :: o.frames }
        else { o with logs := o.logs + 1 }

/-- Cleanup performed by the deferred block of
`Multiplexed.handleConnection` when the forwarding task exits. -/
structure HandleResult where
  loopDone : LoopOutcome
  connClosed : Bool
  deregistered : Bool
  closeFrame : List Nat
  deriving DecidableEq

/-- Embedding of `Multiplexed.handleConnection` as observed from
outside: when the forwarding loop exits, the deferred block always
closes the local connection, deletes the connection ID from the
registry and best-effort writes an empty-payload close frame for that
ID. `none` means the loop has not exited on the given reads. -/
def handleConnection (connID : Nat) (reads : List ReadResult) : Option HandleResult :=
  let o := forwardLoop connID reads
  if o.exited = true then
    some { loopDone := o, connClosed := true, deregistered := true,
           closeFrame := encodeMessage connID [] }
  else none

/-- A closable OS resource (a TCP listener or a WebSocket connection).
Modelled from Go net semantics: `Close` on an already-closed listener
or connection returns an already-closed error (`net.ErrClosed`), and
each call releases the resource again, which `closeCount` counts. -/
structure Closable where
  closeCount : Nat
  deriving DecidableEq

/-- Close a closable resource. -/
def Closable.close (c : Closable) : Closable × Option GoError :=
  ({ closeCount := c.closeCount + 1 },
   if c.closeCount = 0 then none else some GoError.alreadyClosed)

/-- Resources of a `Multiplexed` instance relevant to `Close`: the
local listener (set by `NewMultiplexed`) and the WebSocket connection
(set by `startTunnel`, absent when the dial never happened). -/
structure MuxCloseState where
  listenerConn : Option Closable
  wsConn : Option Closable
  deriving DecidableEq

/-- Embedding of `Multiplexed.Close`: close the listener when present,
close the WebSocket when present, collecting the sub-errors; the Go
code returns nil when the collected list is empty and a wrapping error
otherwise, so the returned error list is empty exactly when the Go
return value is nil. There is no already-closed guard. -/
def Multiplexed.closeMux (t : MuxCloseState) : MuxCloseState × List GoError :=
  let lr : Option Closable × List GoError :=
    match t.listenerConn with
    | none => (none, [])
    | some l =>
        let r := Closable.close l
        (some r.1, match r.2 with | none => [] | some e => [e])
  let wr : Option Closable × List GoError :=
    match t.wsConn with
    | none => (none, [])
    | some w =>
        let r := Closable.close w
        (some r.1, match r.2 with | none => [] | some e => [e])
  ({ listenerConn := lr.1, wsConn := wr.1 }, lr.2 ++ wr.2)

/-! ## Helper lemmas -/

theorem lookupKey_eraseKey_self {κ α : Type} [DecidableEq κ] (k : κ) (m : List (κ × α)) :
    lookupKey k (eraseKey k m) = none := by
  induction m with
  | nil => rfl
  | cons p rest ih =>
      by_cases h : p.1 = k
      · simpa [eraseKey, h] using ih
      · simp [eraseKey, lookupKey, h, ih]

theorem lookupKey_eraseKey_ne {κ α : Type} [DecidableEq κ] (k k' : κ) (m : List (κ × α))
    (h : k' ≠ k) : lookupKey k' (eraseKey k m) = lookupKey k' m := by
  induction m with
  | nil => rfl
  | cons p rest ih =>
      by_cases hp : p.1 = k
      · simp [eraseKey, lookupKey, hp, Ne.symm h, ih]
      · by_cases hp' : p.1 = k'
        · simp [eraseKey, lookupKey, hp, hp', h]
        · simp [eraseKey, lookupKey, hp, hp', ih]

theorem eraseKey_of_lookup_none {κ α : Type} [DecidableEq κ] (k : κ) (m : List (κ × α))
    (h : lookupKey k m = none) : eraseKey k m = m := by
  induction m with
  | nil => rfl
  | cons p rest ih =>
      by_cases hp : p.1 = k
      · simp [lookupKey, hp] at h
      · simp [lookupKey, hp] at h
        simp [eraseKey, hp, ih h]

theorem beUint32_putUint32BE (n : Nat) (h : n < 2 ^ 32) :
    beUint32 (putUint32BE n) = n := by
  simp only [putUint32BE, beUint32, List.foldl]
  omega

theorem decode_encode_eq (id : Nat) (payload : List Nat) (h : id < 2 ^ 32) :
    decodeMessage (encodeMessage id payload) = Except.ok (id, payload) := by
  have hlen : (encodeMessage id payload).length = 4 + payload.length := by
    simp [encodeMessage, putUint32BE]
    omega
  have htake : (encodeMessage id payload).take 4 = putUint32BE id := by
    simp [encodeMessage, putUint32BE]
  have hdrop : (encodeMessage id payload).drop 4 = payload := by
    simp [encodeMessage, putUint32BE]
  simp [decodeMessage, hlen, htake, hdrop, connIDSize, beUint32_putUint32BE id h]

/-! ## Claim theorems -/

/-- Claim C3: for every connection ID below `2 ^ 32` and every byte
payload, including the empty payload, decoding the frame produced by
encoding yields exactly the same pair with no error. -/
theorem decode_encode_roundtrip (id : Nat) (payload : List Nat) (h : id < 2 ^ 32) :
    decodeMessage (encodeMessage id payload) = Except.ok (id, payload) :=
  decode_encode_eq id payload h

/-- Witness for C3 at a concrete input, including the empty payload. -/
theorem decode_encode_roundtrip_witness :
    decodeMessage (encodeMessage 70000 [1, 2, 255]) = Except.ok (70000, [1, 2, 255]) ∧
    decodeMessage (encodeMessage 5 []) = Except.ok (5, []) :=
  ⟨decode_encode_roundtrip 70000 [1, 2, 255] (by norm_num),
   decode_encode_roundtrip 5 [] (by norm_num)⟩

/-- Claim C9: decoding fails exactly when the message is shorter than 4
bytes; on any message of length at least 4 it succeeds with no further
validation, returning the big-endian value of the first 4 bytes and the
remainder as the opaque payload. -/
theorem decodeMessage_spec (msg : List Nat) :
    (msg.length < 4 → decodeMessage msg = Except.error "message too short") ∧
    (4 ≤ msg.length →
      decodeMessage msg = Except.ok (beUint32 (msg.take 4), msg.drop 4)) ∧
    ((∃ e, decodeMessage msg = Except.error e) ↔ msg.length < 4) := by
  refine ⟨fun h => by simp [decodeMessage, connIDSize, h], fun h => ?_, ?_⟩
  · simp [decodeMessage, connIDSize]
    omega
  · constructor
    · rintro ⟨e, he⟩
      by_contra hlen
      simp [decodeMessage, connIDSize, hlen] at he
    · intro h
      exact ⟨"message too short", by simp [decodeMessage, connIDSize, h]⟩

/-- Witness for C9: a 3-byte message fails, a 5-byte message splits into
header value and payload. -/
theorem decodeMessage_spec_witness :
    decodeMessage [9, 9, 9] = Except.error "message too short" ∧
    decodeMessage [0, 0, 1, 2, 7] = Except.ok (258, [7]) := by
  refine ⟨(decodeMessage_spec [9, 9, 9]).1 (by decide), ?_⟩
  have h := (decodeMessage_spec [0, 0, 1, 2, 7]).2.1 (by decide)
  simpa [beUint32] using h

/-- Claim C1: for every inbound non-streaming message, if its ID matches
a pending request then the read loop delivers the response on exactly
that registration channel and removes the registration in the same
step; afterwards the same ID is no longer pending (so reprocessing the
same message is a drop and each request receives at most one response),
while every other in-flight registration is untouched; and a message
whose ID matches no pending request leaves the state unchanged and
produces no effect and no error. -/
theorem readLoop_correlates (st : ClientState) (resp : Response)
    (hty : resp.type ≠ "simctlStream") :
    (∀ ch, lookupKey resp.id st.pendingRequests = some ch →
      Client.processMessage st resp =
        ({ st with pendingRequests := eraseKey resp.id st.pendingRequests },
         [ReadEffect.deliverResponse ch resp]) ∧
      lookupKey resp.id (eraseKey resp.id st.pendingRequests) = none ∧
      (∀ k, k ≠ resp.id →
        lookupKey k (eraseKey resp.id st.pendingRequests) = lookupKey k st.pendingRequests) ∧
      Client.processMessage
          { st with pendingRequests := eraseKey resp.id st.pendingRequests } resp =
        ({ st with pendingRequests := eraseKey resp.id st.pendingRequests }, [])) ∧
    (lookupKey resp.id st.pendingRequests = none →
      Client.processMessage st resp = (st, [])) := by
  constructor
  · intro ch hch
    refine ⟨?_, lookupKey_eraseKey_self _ _,
            fun k hk => lookupKey_eraseKey_ne _ _ _ hk, ?_⟩
    · simp [Client.processMessage, hty, hch]
    · simp [Client.processMessage, hty, lookupKey_eraseKey_self]
  · intro hnone
    simp [Client.processMessage, hty, hnone]

/-- Witness for C1: with two requests in flight, the response for the
first is delivered on channel 1 and only that registration is removed;
an unknown ID is dropped. -/
theorem readLoop_correlates_witness :
    Client.processMessage
        ⟨false, 0, false, [("a", 1), ("b", 2)], [], 3⟩
        ⟨"screenshot", "a", "", "", "", "", [], [], none⟩ =
      (⟨false, 0, false, [("b", 2)], [], 3⟩,
       [ReadEffect.deliverResponse 1 ⟨"screenshot", "a", "", "", "", "", [], [], none⟩]) ∧
    Client.processMessage
        ⟨false, 0, false, [("b", 2)], [], 3⟩
        ⟨"screenshot", "zz", "", "", "", "", [], [], none⟩ =
      (⟨false, 0, false, [("b", 2)], [], 3⟩, []) := by
  constructor
  · have h := ((readLoop_correlates
        ⟨false, 0, false, [("a", 1), ("b", 2)], [], 3⟩
        ⟨"screenshot", "a", "", "", "", "", [], [], none⟩ (by decide)).1 1 (by decide)).1
    rw [h]
    decide
  · exact (readLoop_correlates
        ⟨false, 0, false, [("b", 2)], [], 3⟩
        ⟨"screenshot", "zz", "", "", "", "", [], [], none⟩ (by decide)).2 (by decide)

/-- Claim C10: on a client that has already been closed, sendRequest
returns the not-connected error immediately, without registering a
pending request, without writing to the transport and without touching
the client state, whatever the rest of the environment would do. -/
theorem sendRequest_closed (st : ClientState) (outcome : SendOutcome) (writeOk : Bool)
    (h : st.closed = true) :
    Client.sendRequest st outcome writeOk =
      { state := st, registered := false, wrote := false,
        result := Except.error GoError.notConnected } := by
  simp [Client.sendRequest, h]

/-- Witness for C10 on a concrete closed client. -/
theorem sendRequest_closed_witness :
    Client.sendRequest ⟨true, 1, true, [], [], 4⟩
        (SendOutcome.received ⟨"tap", "x", "", "", "", "", [], [], none⟩) true =
      { state := ⟨true, 1, true, [], [], 4⟩, registered := false, wrote := false,
        result := Except.error GoError.notConnected } :=
  sendRequest_closed ⟨true, 1, true, [], [], 4⟩
    (SendOutcome.received ⟨"tap", "x", "", "", "", "", [], [], none⟩) true rfl

/-- Claim C8: when the matching response carries a non-empty
server-reported error string, sendRequest returns that string as an
application error with no response value; the error is distinct from
every transport error the client produces, and no transport teardown
happens: the client stays open, the WebSocket is not closed and the
other pending registrations are untouched. -/
theorem sendRequest_appError (st : ClientState) (resp : Response)
    (h : st.closed = false) (he : resp.error ≠ "") :
    Client.sendRequest st (SendOutcome.received resp) true =
      { state := { st with nextRequestID := st.nextRequestID + 1 },
        registered := true, wrote := true,
        result := Except.error (GoError.appError resp.error) } ∧
    (Client.sendRequest st (SendOutcome.received resp) true).state.closed = false ∧
    (Client.sendRequest st (SendOutcome.received resp) true).state.wsCloseCount
      = st.wsCloseCount ∧
    (Client.sendRequest st (SendOutcome.received resp) true).state.pendingRequests
      = st.pendingRequests ∧
    GoError.appError resp.error ≠ GoError.connectionClose ∧
    GoError.appError resp.error ≠ GoError.notConnected ∧
    GoError.appError resp.error ≠ GoError.sendFailed := by
  refine ⟨?_, ?_, ?_, ?_, fun hc => GoError.noConfusion hc,
          fun hc => GoError.noConfusion hc, fun hc => GoError.noConfusion hc⟩
    <;> simp [Client.sendRequest, h, he]

/-- Witness for C8: a response with error string "boom" fails the call
with an application error and leaves the client state alone. -/
theorem sendRequest_appError_witness :
    Client.sendRequest ⟨false, 0, false, [("q", 9)], [], 4⟩
        (SendOutcome.received ⟨"tap", "x", "boom", "", "", "", [], [], none⟩) true =
      { state := ⟨false, 0, false, [("q", 9)], [], 5⟩,
        registered := true, wrote := true,
        result := Except.error (GoError.appError "boom") } := by
  have h := (sendRequest_appError ⟨false, 0, false, [("q", 9)], [], 4⟩
      ⟨"tap", "x", "boom", "", "", "", [], [], none⟩ rfl (by decide)).1
  rw [h]

/-- Claim C2: on a client that is not yet closed, close() marks the
client closed, closes the transport once, empties both registries,
closes every pending request channel exactly once, and runs the
connection-closed error delivery on every registered streaming command:
a command that already finished is returned unchanged, a still-running
one is errored with the connection-closed error and completed; a second
close() call returns nil and performs no further teardown at all. -/
theorem close_spec (st : ClientState) (wsErr : Option GoError) (h : st.closed = false) :
    (Client.close st wsErr).state.closed = true ∧
    (Client.close st wsErr).state.doneClosed = true ∧
    (Client.close st wsErr).state.wsCloseCount = st.wsCloseCount + 1 ∧
    (Client.close st wsErr).state.pendingRequests = [] ∧
    (Client.close st wsErr).state.simctlExecutions = [] ∧
    (Client.close st wsErr).closedChans = st.pendingRequests.map Prod.snd ∧
    (Client.close st wsErr).finalCmds = st.simctlExecutions.map
      (fun p => (p.1, SimctlCmd.handleError p.2 GoError.connectionClose)) ∧
    (Client.close st wsErr).ret = wsErr ∧
    (∀ p ∈ st.simctlExecutions, p.2.finished = true →
      (p.1, p.2) ∈ (Client.close st wsErr).finalCmds) ∧
    (∀ p ∈ st.simctlExecutions, p.2.finished = false →
      (p.1, { p.2 with err := some GoError.connectionClose, finished := true,
                       doneClosed := true }) ∈ (Client.close st wsErr).finalCmds) ∧
    Client.close (Client.close st wsErr).state wsErr =
      { state := (Client.close st wsErr).state, closedChans := [], finalCmds := [],
        ret := none } := by
  refine ⟨?_, ?_, ?_, ?_, ?_, ?_, ?_, ?_, ?_, ?_, ?_⟩
  · simp [Client.close, h]
  · simp [Client.close, h]
  · simp [Client.close, h]
  · simp [Client.close, h]
  · simp [Client.close, h]
  · simp [Client.close, h]
  · simp [Client.close, h]
  · simp [Client.close, h]
  · intro p hp hf
    simp only [Client.close, h, Bool.false_eq_true, if_false]
    exact List.mem_map.mpr ⟨p, hp, by simp [SimctlCmd.handleError, hf]⟩
  · intro p hp hf
    simp only [Client.close, h, Bool.false_eq_true, if_false]
    exact List.mem_map.mpr ⟨p, hp, by simp [SimctlCmd.handleError, hf]⟩
  · simp [Client.close, h]

/-- Witness for C2: one pending request, one running command, one
finished command; close fails the request channel and the running
command, leaves the finished command untouched, and the second close is
a no-op. -/
theorem close_spec_witness :
    (Client.close ⟨false, 0, false, [("r1", 5)],
        [("c1", ⟨true, false, false, none, 0, false, false, [], []⟩),
         ("c2", ⟨true, true, true, none, 0, false, false, [], []⟩)], 7⟩ none).closedChans
      = [5] ∧
    (Client.close ⟨false, 0, false, [("r1", 5)],
        [("c1", ⟨true, false, false, none, 0, false, false, [], []⟩),
         ("c2", ⟨true, true, true, none, 0, false, false, [], []⟩)], 7⟩ none).finalCmds
      = [("c1", ⟨true, true, true, some GoError.connectionClose, 0, false, false, [], []⟩),
         ("c2", ⟨true, true, true, none, 0, false, false, [], []⟩)] := by
  obtain ⟨-, -, -, -, -, h6, h7, -, -, -, -⟩ :=
    close_spec ⟨false, 0, false, [("r1", 5)],
        [("c1", ⟨true, false, false, none, 0, false, false, [], []⟩),
         ("c2", ⟨true, true, true, none, 0, false, false, [], []⟩)], 7⟩ none rfl
  constructor
  · rw [h6]
    decide
  · rw [h7]
    decide

theorem handleOutput_none_proj (c : SimctlState) (so se : List Nat) :
    (SimctlCmd.handleOutput c so se none).started = c.started ∧
    (SimctlCmd.handleOutput c so se none).finished = c.finished ∧
    (SimctlCmd.handleOutput c so se none).doneClosed = c.doneClosed ∧
    (SimctlCmd.handleOutput c so se none).err = c.err ∧
    (SimctlCmd.handleOutput c so se none).exitCode = c.exitCode := by
  simp only [SimctlCmd.handleOutput]
  split <;> split <;> simp

theorem handleOutput_terminal_proj (c : SimctlState) (so se : List Nat) (ec : Int) :
    (SimctlCmd.handleOutput c so se (some ec)).started = c.started ∧
    (SimctlCmd.handleOutput c so se (some ec)).finished = true ∧
    (SimctlCmd.handleOutput c so se (some ec)).doneClosed = true ∧
    (SimctlCmd.handleOutput c so se (some ec)).err = c.err ∧
    (SimctlCmd.handleOutput c so se (some ec)).exitCode = ec := by
  simp only [SimctlCmd.handleOutput]
  split <;> split <;> simp

theorem runStream_nonterminal (msgs : List StreamMsg) (c : SimctlState)
    (h : ∀ m ∈ msgs, m.exitCode = none) :
    (runStream c msgs).started = c.started ∧
    (runStream c msgs).finished = c.finished ∧
    (runStream c msgs).doneClosed = c.doneClosed ∧
    (runStream c msgs).err = c.err ∧
    (runStream c msgs).exitCode = c.exitCode := by
  induction msgs generalizing c with
  | nil => simp [runStream]
  | cons m rest ih =>
      have hm : m.exitCode = none := h m (by simp)
      have hrest : ∀ x ∈ rest, x.exitCode = none := fun x hx => h x (by simp [hx])
      simp only [runStream, hm]
      obtain ⟨h1, h2, h3, h4, h5⟩ := ih (SimctlCmd.handleOutput c m.stdout m.stderr none) hrest
      obtain ⟨p1, p2, p3, p4, p5⟩ := handleOutput_none_proj c m.stdout m.stderr
      exact ⟨h1.trans p1, h2.trans p2, h3.trans p3, h4.trans p4, h5.trans p5⟩

theorem runStream_append (c : SimctlState) (xs : List StreamMsg) (m : StreamMsg) :
    runStream c (xs ++ [m]) =
      SimctlCmd.handleOutput (runStream c xs) m.stdout m.stderr m.exitCode := by
  induction xs generalizing c with
  | nil => simp [runStream]
  | cons x rest ih => simp [runStream, ih]

/-- Claim C7: a started command that receives any number of
non-terminal output messages stays incomplete, so Wait still blocks;
after one further message carrying exit code 0 Wait returns with a nil
error; a non-zero terminal exit code makes Wait return the exit-code
error for that code; and Wait on a command that was never started
returns the not-started error. -/
theorem wait_spec (c : SimctlState) (msgs : List StreamMsg) (so se : List Nat)
    (hs : c.started = true) (hd : c.doneClosed = false) (he : c.err = none)
    (hmsgs : ∀ m ∈ msgs, m.exitCode = none) :
    SimctlCmd.wait (runStream c msgs) = none ∧
    SimctlCmd.wait (runStream c (msgs ++ [⟨so, se, some 0⟩])) = some none ∧
    (∀ n : Int, n ≠ 0 →
      SimctlCmd.wait (runStream c (msgs ++ [⟨so, se, some n⟩])) =
        some (some (GoError.exitCodeErr n))) ∧
    (∀ c2 : SimctlState, c2.started = false →
      SimctlCmd.wait c2 = some (some GoError.notStarted)) := by
  obtain ⟨q1, q2, q3, q4, q5⟩ := runStream_nonterminal msgs c hmsgs
  refine ⟨?_, ?_, ?_, ?_⟩
  · simp [SimctlCmd.wait, q1, q3, hs, hd]
  · rw [runStream_append]
    obtain ⟨p1, p2, p3, p4, p5⟩ :=
      handleOutput_terminal_proj (runStream c msgs) so se 0
    simp [SimctlCmd.wait, p1, p2, p3, p4, p5, q1, q4, hs, he]
  · intro n hn
    rw [runStream_append]
    obtain ⟨p1, p2, p3, p4, p5⟩ :=
      handleOutput_terminal_proj (runStream c msgs) so se n
    simp [SimctlCmd.wait, p1, p2, p3, p4, p5, q1, q4, hs, he, hn]
  · intro c2 h2
    simp [SimctlCmd.wait, h2]

/-- Witness for C7: three output messages leave Wait blocked; the fourth
message with exit code 0 completes it with a nil error; exit code 3
gives the exit-code error; Wait before Start errors. -/
theorem wait_spec_witness :
    SimctlCmd.wait (runStream ⟨true, false, false, none, 0, true, false, [], []⟩
        [⟨[1], [], none⟩, ⟨[2], [], none⟩, ⟨[3], [], none⟩]) = none ∧
    SimctlCmd.wait (runStream ⟨true, false, false, none, 0, true, false, [], []⟩
        ([⟨[1], [], none⟩, ⟨[2], [], none⟩, ⟨[3], [], none⟩] ++ [⟨[], [], some 0⟩]))
      = some none ∧
    SimctlCmd.wait (runStream ⟨true, false, false, none, 0, true, false, [], []⟩
        ([⟨[1], [], none⟩, ⟨[2], [], none⟩, ⟨[3], [], none⟩] ++ [⟨[], [], some 3⟩]))
      = some (some (GoError.exitCodeErr 3)) ∧
    SimctlCmd.wait ⟨false, false, false, none, 0, false, false, [], []⟩
      = some (some GoError.notStarted) := by
  obtain ⟨h1, h2, h3, h4⟩ := wait_spec ⟨true, false, false, none, 0, true, false, [], []⟩
      [⟨[1], [], none⟩, ⟨[2], [], none⟩, ⟨[3], [], none⟩] [] []
      rfl rfl rfl (by decide)
  exact ⟨h1, h2, h3 3 (by decide), h4 ⟨false, false, false, none, 0, false, false, [], []⟩ rfl⟩

/-- Claim C4: when the demux loop receives a frame with empty payload
for connection ID X, then if X is registered the local connection for X
is closed, X is removed from the registry and the loop continues; if X
is absent nothing is closed, delivered or logged, the registry is
unchanged and the loop continues. -/
theorem demux_close_frame (conns : List (Nat × Nat)) (X : Nat) (hX : X < 2 ^ 32) :
    (∀ conn, lookupKey X conns = some conn →
      readFromWebSocketStep conns (encodeMessage X []) true =
        { connections := eraseKey X conns,
          effects := [DemuxEffect.closeLocalConn conn], continues := true } ∧
      lookupKey X (eraseKey X conns) = none) ∧
    (lookupKey X conns = none →
      readFromWebSocketStep conns (encodeMessage X []) true =
        { connections := conns, effects := [], continues := true }) := by
  have hdec := decode_encode_eq X [] hX
  constructor
  · intro conn hc
    refine ⟨?_, lookupKey_eraseKey_self _ _⟩
    simp [readFromWebSocketStep, hdec, hc]
  · intro hn
    simp [readFromWebSocketStep, hdec, hn]

/-- Witness for C4: a close frame for registered ID 1 closes local
connection 10 and deregisters it; a close frame for absent ID 2 is a
no-op. -/
theorem demux_close_frame_witness :
    readFromWebSocketStep [(1, 10)] (encodeMessage 1 []) true =
      { connections := [], effects := [DemuxEffect.closeLocalConn 10], continues := true } ∧
    readFromWebSocketStep [(1, 10)] (encodeMessage 2 []) true =
      { connections := [(1, 10)], effects := [], continues := true } := by
  constructor
  · have h := ((demux_close_frame [(1, 10)] 1 (by norm_num)).1 10 (by decide)).1
    rw [h]
    decide
  · exact (demux_close_frame [(1, 10)] 2 (by norm_num)).2 (by decide)

/-- Counterexample for C5: the forwarding loop does not terminate on a
non-end-of-stream local read error. After one such error it is still
running and a later successful read is still encoded and forwarded; the
error is only logged. -/
theorem forwardLoop_continues_after_read_error :
    (forwardLoop 1 [ReadResult.readErr, ReadResult.chunk [7] true]).exited = false ∧
    (forwardLoop 1 [ReadResult.readErr, ReadResult.chunk [7] true]).frames =
      [encodeMessage 1 [7]] ∧
    (forwardLoop 1 [ReadResult.readErr, ReadResult.chunk [7] true]).logs = 1 := by
  decide

/-- Claim C5 as amended: a clean end-of-stream terminates the
forwarding loop silently; any other local read error is logged and the
loop continues with the next read; and whenever the forwarding task
exits it always closes the local connection, removes its connection ID
from the registry and best-effort sends the empty-payload close frame
for that ID. -/
theorem handleConnection_spec (connID : Nat) (rest : List ReadResult) :
    forwardLoop connID (ReadResult.eof :: rest) =
      { exited := true, frames := [], logs := 0 } ∧
    forwardLoop connID (ReadResult.readErr :: rest) =
      { forwardLoop connID rest with logs := (forwardLoop connID rest).logs + 1 } ∧
    (∀ reads : List ReadResult,
      (handleConnection connID reads).isSome = (forwardLoop connID reads).exited) ∧
    (∀ reads r, handleConnection connID reads = some r →
      r.connClosed = true ∧ r.deregistered = true ∧
      r.closeFrame = encodeMessage connID [] ∧
      r.loopDone = forwardLoop connID reads) := by
  refine ⟨rfl, rfl, ?_, ?_⟩
  · intro reads
    by_cases hx : (forwardLoop connID reads).exited = true
    · simp [handleConnection, hx]
    · simp only [Bool.not_eq_true] at hx
      simp [handleConnection, hx]
  · intro reads r hr
    by_cases hx : (forwardLoop connID reads).exited = true
    · simp only [handleConnection, hx, if_true, Option.some.injEq] at hr
      subst hr
      exact ⟨rfl, rfl, rfl, rfl⟩
    · simp [handleConnection, hx] at hr

/-- Witness for C5: end-of-stream exits the loop and the deferred
cleanup closes the connection, deregisters ID 2 and sends the close
frame for ID 2. -/
theorem handleConnection_spec_witness :
    forwardLoop 2 (ReadResult.eof :: [ReadResult.readErr]) =
      { exited := true, frames := [], logs := 0 } ∧
    (handleConnection 2 [ReadResult.readErr]).isSome =
      (forwardLoop 2 [ReadResult.readErr]).exited ∧
    ((handleConnection 2 [ReadResult.chunk [5] true, ReadResult.eof] =
        some { loopDone := { exited := true, frames := [encodeMessage 2 [5]], logs := 0 },
               connClosed := true, deregistered := true,
               closeFrame := encodeMessage 2 [] }) ∧
      ({ loopDone := { exited := true, frames := [encodeMessage 2 [5]], logs := 0 },
         connClosed := true, deregistered := true,
         closeFrame := encodeMessage 2 [] : HandleResult }).connClosed = true ∧
      ({ loopDone := { exited := true, frames := [encodeMessage 2 [5]], logs := 0 },
         connClosed := true, deregistered := true,
         closeFrame := encodeMessage 2 [] : HandleResult }).deregistered = true) := by
  obtain ⟨h1, -, h3, h4⟩ := handleConnection_spec 2 [ReadResult.readErr]
  have hc : handleConnection 2 [ReadResult.chunk [5] true, ReadResult.eof] =
      some { loopDone := { exited := true, frames := [encodeMessage 2 [5]], logs := 0 },
             connClosed := true, deregistered := true,
             closeFrame := encodeMessage 2 [] } := by decide
  have h := h4 [ReadResult.chunk [5] true, ReadResult.eof] _ hc
  exact ⟨h1, h3 [ReadResult.readErr], hc, h.1, h.2.1⟩

/-- Counterexample for C6: on a multiplexer whose listener and
WebSocket are open, the first close() returns no error, but the second
close() reports two already-closed errors and has released each
resource a second time. -/
theorem mux_close_not_idempotent :
    (Multiplexed.closeMux { listenerConn := some ⟨0⟩, wsConn := some ⟨0⟩ }).2 = [] ∧
    (Multiplexed.closeMux (Multiplexed.closeMux
        { listenerConn := some ⟨0⟩, wsConn := some ⟨0⟩ }).1).2 =
      [GoError.alreadyClosed, GoError.alreadyClosed] ∧
    (Multiplexed.closeMux (Multiplexed.closeMux
        { listenerConn := some ⟨0⟩, wsConn := some ⟨0⟩ }).1).1 =
      { listenerConn := some ⟨2⟩, wsConn := some ⟨2⟩ } := by
  decide

/-- Claim C6 as amended: close() closes the local listener and the
duplex transport and aggregates their sub-errors, but it is not
idempotent: it keeps no already-closed guard, so a second call invokes
Close again on both already-closed resources, releasing each a second
time and reporting both already-closed errors. -/
theorem mux_close_spec (l w : Closable) (hl : l.closeCount = 0) (hw : w.closeCount = 0) :
    (Multiplexed.closeMux { listenerConn := some l, wsConn := some w }).2 = [] ∧
    (Multiplexed.closeMux { listenerConn := some l, wsConn := some w }).1 =
      { listenerConn := some ⟨l.closeCount + 1⟩, wsConn := some ⟨w.closeCount + 1⟩ } ∧
    (Multiplexed.closeMux (Multiplexed.closeMux
        { listenerConn := some l, wsConn := some w }).1).2 =
      [GoError.alreadyClosed, GoError.alreadyClosed] ∧
    (Multiplexed.closeMux (Multiplexed.closeMux
        { listenerConn := some l, wsConn := some w }).1).1 =
      { listenerConn := some ⟨l.closeCount + 2⟩, wsConn := some ⟨w.closeCount + 2⟩ } := by
  refine ⟨?_, ?_, ?_, ?_⟩ <;>
    simp [Multiplexed.closeMux, Closable.close, hl, hw]

/-- Witness for C6 on fresh resources. -/
theorem mux_close_spec_witness :
    (Multiplexed.closeMux { listenerConn := some ⟨0⟩, wsConn := some ⟨0⟩ }).2 = [] ∧
    (Multiplexed.closeMux (Multiplexed.closeMux
        { listenerConn := some ⟨0⟩, wsConn := some ⟨0⟩ }).1).2 =
      [GoError.alreadyClosed, GoError.alreadyClosed] := by
  obtain ⟨h1, -, h3, -⟩ := mux_close_spec ⟨0⟩ ⟨0⟩ rfl rfl
  exact ⟨h1, h3⟩

end GoSDK
